import Mathlib

/-!
Verification of the Porter operator's Installation reconciler
(controllers/installation_controller.go) and its layered configuration
resolution, against its natural-language specification.

The reconciler is embedded shallowly: the cluster API (client.Get /
client.Create) is an explicit record of response functions, and the
reconciler returns, next to its `(ctrl.Result, error)` pair, the trace of
creation calls it issued, in order.
-/

set_option autoImplicit false

deriving instance DecidableEq for Except

namespace PorterOperator

/-- Namespace + name pair, mirroring `types.NamespacedName`. -/
structure NamespacedName where
  ns : String
  name : String
deriving DecidableEq, Repr

/-- Outcomes of a cluster API call, mirroring `apierrors`: the reconciler
distinguishes only `IsNotFound`; `alreadyExists` models the create-conflict
condition; everything else is collapsed into `other`. -/
inductive ApiError where
  | notFound
  | alreadyExists
  | other (msg : String)
deriving DecidableEq, Repr

/-- Mirrors `apierrors.IsNotFound`. -/
def ApiError.isNotFound : ApiError → Bool
  | ApiError.notFound => true
  | _ => false

/-- Mirrors `corev1.LocalObjectReference`. -/
structure LocalObjectReference where
  name : String
deriving DecidableEq, Repr

/-- `InstallationStatus` from api/v1: the two observed-state job references. -/
structure InstallationStatus where
  activeJob : LocalObjectReference
  lastJob : LocalObjectReference
deriving DecidableEq, Repr

/-- `InstallationSpec` from api/v1. The Go `map[string]string` of literal
parameters is modelled as an association list (one entry per key). -/
structure InstallationSpec where
  reference : String
  action : String
  porterVersion : String
  serviceAccount : String
  credentialSets : List String
  parameterSets : List String
  parameters : List (String × String)
  outputsVolumeSize : String
deriving DecidableEq, Repr

/-- The `Installation` custom resource: TypeMeta + ObjectMeta fields the
reconciler reads, plus spec and status. -/
structure Installation where
  apiVersion : String
  kind : String
  name : String
  ns : String
  uid : String
  resourceVersion : String
  spec : InstallationSpec
  status : InstallationStatus
deriving DecidableEq, Repr

/-- Mirrors `corev1.ConfigMap`: only the string data is used. -/
structure ConfigMap where
  data : List (String × String)
deriving DecidableEq, Repr

/-- The zero value a Go `&corev1.ConfigMap{}` keeps when `Get` fails. -/
def ConfigMap.empty : ConfigMap := { data := [] }

/-- A validated capacity quantity; only validity matters to the reconciler,
so the parsed quantity keeps its source string. -/
structure Quantity where
  raw : String
deriving DecidableEq, Repr

/-- Recognized unit suffixes of a capacity quantity (binary and decimal
suffixes, or none). -/
def quantitySuffixes : List String :=
  ["Ki", "Mi", "Gi", "Ti", "Pi", "Ei", "n", "u", "m", "k", "M", "G", "T", "P", "E", ""]

/-- An integer or decimal number: digits, then optionally a dot and digits. -/
def isQuantityNumberChars (cs : List Char) : Bool :=
  let intPart := cs.takeWhile Char.isDigit
  let rest := cs.dropWhile Char.isDigit
  !intPart.isEmpty &&
    (rest.isEmpty ||
      (rest.head? == some '.' && !rest.tail.isEmpty && rest.tail.all Char.isDigit))

/-- Modelled from the spec: `resource.ParseQuantity` is external library code
(k8s.io/apimachinery); the spec describes a valid capacity quantity as an
integer/decimal number plus a recognized binary/decimal unit suffix, e.g.
"128Mi". Validity is all the reconciler depends on. -/
def parseQuantity (s : String) : Option Quantity :=
  if quantitySuffixes.any (fun suf =>
        let cs := s.data
        let sc := suf.data
        sc.isSuffixOf cs && isQuantityNumberChars (cs.take (cs.length - sc.length)))
  then some { raw := s } else none

/-- Modelled from the spec: `manifest.IsCoreAction` is external library code
(get.porter.sh/porter); the spec fixes the core verbs as the
install/upgrade/uninstall lifecycle actions. -/
def isCoreAction (action : String) : Bool :=
  action == "install" || action == "upgrade" || action == "uninstall"

/-- Mirrors `corev1.PullPolicy` (the two values the reconciler produces). -/
inductive PullPolicy where
  | always
  | ifNotPresent
deriving DecidableEq, Repr

/-- Mirrors `metav1.OwnerReference` (fields the reconciler sets). -/
structure OwnerReference where
  apiVersion : String
  kind : String
  name : String
  uid : String
  blockOwnerDeletion : Bool
deriving DecidableEq, Repr

/-- Mirrors `metav1.ObjectMeta` (fields the reconciler sets). -/
structure ObjectMeta where
  name : String
  generateName : String
  ns : String
  labels : List (String × String)
  ownerReferences : List OwnerReference
deriving DecidableEq, Repr

/-- Mirrors `corev1.PersistentVolumeAccessMode` (only ReadWriteOnce used). -/
inductive AccessMode where
  | readWriteOnce
deriving DecidableEq, Repr

/-- Mirrors `corev1.PersistentVolumeClaim` (fields the reconciler sets):
metadata, access modes, and the resource requests map. -/
structure PersistentVolumeClaim where
  metadata : ObjectMeta
  accessModes : List AccessMode
  requests : List (String × Quantity)
deriving DecidableEq, Repr

/-- Mirrors `corev1.VolumeSource` (the two sources the reconciler uses). -/
inductive VolumeSource where
  | persistentVolumeClaim (claimName : String)
  | secret (secretName : String) (optional : Bool)
deriving DecidableEq, Repr

/-- Mirrors `corev1.Volume`. -/
structure Volume where
  name : String
  source : VolumeSource
deriving DecidableEq, Repr

/-- Mirrors `corev1.EnvVar`. -/
structure EnvVar where
  name : String
  value : String
deriving DecidableEq, Repr

/-- Mirrors `corev1.EnvFromSource` with a secret reference. -/
structure EnvFromSource where
  secretName : String
  optional : Bool
deriving DecidableEq, Repr

/-- Mirrors `corev1.VolumeMount`. -/
structure VolumeMount where
  name : String
  mountPath : String
deriving DecidableEq, Repr

/-- Mirrors `corev1.Container` (fields the reconciler sets). -/
structure Container where
  name : String
  image : String
  imagePullPolicy : PullPolicy
  args : List String
  env : List EnvVar
  envFrom : List EnvFromSource
  volumeMounts : List VolumeMount
deriving DecidableEq, Repr

/-- Mirrors `corev1.PodSpec` (fields the reconciler sets). -/
structure PodSpec where
  volumes : List Volume
  containers : List Container
  restartPolicy : String
  serviceAccountName : String
deriving DecidableEq, Repr

/-- Mirrors `corev1.PodTemplateSpec`. -/
structure PodTemplateSpec where
  metadata : ObjectMeta
  spec : PodSpec
deriving DecidableEq, Repr

/-- Mirrors `batchv1.JobSpec` (fields the reconciler sets; the int32
pointers Completions and BackoffLimit become plain integers). -/
structure JobSpec where
  completions : Int
  backoffLimit : Int
  template : PodTemplateSpec
deriving DecidableEq, Repr

/-- Mirrors `batchv1.Job`. -/
structure Job where
  metadata : ObjectMeta
  spec : JobSpec
deriving DecidableEq, Repr

/-- One creation call issued by the reconciler, in the order attempted.
`updateInstallationStatus` models the status write-back call the client API
offers (`r.Status().Update`); the reconciler under verification never
issues it. -/
inductive Effect where
  | createPVC (pvc : PersistentVolumeClaim)
  | createJob (job : Job)
  | updateInstallationStatus (ns name : String) (status : InstallationStatus)
deriving DecidableEq, Repr

/-- The cluster API the reconciler talks to (`client.Client`), as explicit
response functions: `Get` by namespaced name for each kind, and the outcome
of each `Create` call (`none` = accepted, `some e` = rejected with `e`). -/
structure Cluster where
  getInstallation : NamespacedName → Except ApiError Installation
  getJob : NamespacedName → Except ApiError Job
  getConfigMap : NamespacedName → Except ApiError ConfigMap
  createPVC : PersistentVolumeClaim → Option ApiError
  createJob : Job → Option ApiError

/-- Errors a reconciliation pass can return: an invalid resolved
outputsVolumeSize (the `errors.Wrapf` of the parse failure), or a cluster
API error (possibly wrapped). -/
inductive ReconcileError where
  | invalidQuantity (s : String)
  | api (e : ApiError)
deriving DecidableEq, Repr

/-- Mirrors `ctrl.Result` (only the Requeue field is ever set). -/
structure ReconcileResult where
  requeue : Bool
deriving DecidableEq, Repr

/-- `getOutputsVolumeSize`: instance override if non-empty, else the
`outputsVolumeSize` key of the namespace's "porter" configmap (a failed
`Get` leaves the zero configmap, so the lookup misses), else "128Mi";
the resolved string must parse as a quantity or the pass errors. -/
def getOutputsVolumeSize (r : Cluster) (inst : Installation) :
    Except ReconcileError Quantity :=
  let outputsVolumeSize : String :=
    if inst.spec.outputsVolumeSize != "" then
      inst.spec.outputsVolumeSize
    else
      let cfg : ConfigMap :=
        match r.getConfigMap { ns := inst.ns, name := "porter" } with
        | Except.ok cfg => cfg
        | Except.error _ => ConfigMap.empty
      match cfg.data.lookup "outputsVolumeSize" with
      | some v => v
      | none => "128Mi"
  match parseQuantity outputsVolumeSize with
  | some qty => Except.ok qty
  | none => Except.error (ReconcileError.invalidQuantity outputsVolumeSize)

/-- `getPorterImageVersion`: instance override if non-empty, else the
`porterVersion` key of the namespace's "porter" configmap, else "latest";
the pull policy is Always for the floating tags "canary"/"latest" and
IfNotPresent otherwise. -/
def getPorterImageVersion (r : Cluster) (inst : Installation) :
    String × PullPolicy :=
  let porterVersion : String :=
    if inst.spec.porterVersion != "" then
      inst.spec.porterVersion
    else
      let cfg : ConfigMap :=
        match r.getConfigMap { ns := inst.ns, name := "porter" } with
        | Except.ok cfg => cfg
        | Except.error _ => ConfigMap.empty
      match cfg.data.lookup "porterVersion" with
      | some v => v
      | none => "latest"
  let pullPolicy : PullPolicy :=
    if porterVersion == "canary" || porterVersion == "latest" then
      PullPolicy.always
    else
      PullPolicy.ifNotPresent
  (porterVersion, pullPolicy)

/-- `getPorterAgentServiceAccount`: instance override if non-empty, else the
`serviceAccount` key of the namespace's "porter" configmap, else "". -/
def getPorterAgentServiceAccount (r : Cluster) (inst : Installation) : String :=
  if inst.spec.serviceAccount != "" then
    inst.spec.serviceAccount
  else
    let cfg : ConfigMap :=
      match r.getConfigMap { ns := inst.ns, name := "porter" } with
      | Except.ok cfg => cfg
      | Except.error _ => ConfigMap.empty
    match cfg.data.lookup "serviceAccount" with
    | some v => v
    | none => ""

/-- The scratch volume claim built inside `createJobForInstallation`:
named after the job, labeled, ReadWriteOnce, storage request = resolved
outputs volume size. -/
def mkPvc (jobName : String) (inst : Installation) (outputsReq : Quantity) :
    PersistentVolumeClaim :=
  { metadata :=
      { name := jobName
        generateName := ""
        ns := inst.ns
        labels := [("porter", "true"), ("installation", inst.name), ("job", jobName)]
        ownerReferences := [] }
    accessModes := [AccessMode.readWriteOnce]
    requests := [("storage", outputsReq)] }

/-- The porter command line built inside `createJobForInstallation`, append
by append as in the Go source. The literal-parameter flags follow the
association list's order (the Go map's iteration order is unspecified). -/
def porterArgs (inst : Installation) : List String :=
  let args0 : List String :=
    if isCoreAction inst.spec.action then
      [inst.spec.action]
    else
      ["invoke", "--action=" ++ inst.spec.action]
  let args1 := args0 ++
    [inst.name,
     "--reference=" ++ inst.spec.reference,
     "--debug",
     "--debug-plugins",
     "--driver=kubernetes"]
  let args2 := args1 ++ inst.spec.credentialSets.map (fun c => "-c=" ++ c)
  let args3 := args2 ++ inst.spec.parameterSets.map (fun p => "-p=" ++ p)
  args3 ++ inst.spec.parameters.map (fun kv => "--param=" ++ kv.1 ++ "=" ++ kv.2)

/-- The batch job built inside `createJobForInstallation`, field for field:
one completion, zero backoff, labeled job metadata with no owner reference,
pod template whose metadata carries the owner reference to the
Installation, the shared and config volumes, one container running the
porter agent image with the computed args, env, optional secret env block
and mounts, restart policy Never, and the resolved service account. -/
def mkPorterJob (r : Cluster) (jobName : String) (inst : Installation)
    (pvc : PersistentVolumeClaim) : Job :=
  let pv := getPorterImageVersion r inst
  let img := "ghcr.io/getporter/porter:kubernetes-" ++ pv.1
  let serviceAccount := getPorterAgentServiceAccount r inst
  { metadata :=
      { name := jobName
        generateName := ""
        ns := inst.ns
        labels := [("porter", "true"), ("installation", inst.name)]
        ownerReferences := [] }
    spec :=
      { completions := 1
        backoffLimit := 0
        template :=
          { metadata :=
              { name := ""
                generateName := jobName
                ns := inst.ns
                labels := [("porter", "true"), ("installation", inst.name)]
                ownerReferences :=
                  [{ apiVersion := inst.apiVersion
                     kind := inst.kind
                     name := inst.name
                     uid := inst.uid
                     blockOwnerDeletion := true }] }
            spec :=
              { volumes :=
                  [{ name := "porter-shared"
                     source := VolumeSource.persistentVolumeClaim pvc.metadata.name },
                   { name := "porter-config"
                     source := VolumeSource.secret "porter-config" true }]
                containers :=
                  [{ name := jobName
                     image := img
                     imagePullPolicy := pv.2
                     args := porterArgs inst
                     env :=
                       [{ name := "KUBE_NAMESPACE", value := inst.ns },
                        { name := "IN_CLUSTER", value := "true" },
                        { name := "LABELS",
                          value := "porter=true installation=" ++ inst.name },
                        { name := "JOB_VOLUME_NAME", value := pvc.metadata.name },
                        { name := "JOB_VOLUME_PATH", value := "/porter-shared" },
                        { name := "CLEANUP_JOBS", value := "false" }]
                     envFrom := [{ secretName := "porter-env", optional := true }]
                     volumeMounts :=
                       [{ name := "porter-shared", mountPath := "/porter-shared" },
                        { name := "porter-config", mountPath := "/porter-config" }] }]
                restartPolicy := "Never"
                serviceAccountName := serviceAccount } } } }

/-- `createJobForInstallation`: resolve the outputs volume size (aborting on
a parse error before any create), create the PVC (returning its error and
stopping if the create is rejected), then build and create the job
(wrapping any rejection as the returned error). The second component is
the ordered trace of create calls attempted. -/
def createJobForInstallation (r : Cluster) (jobName : String)
    (inst : Installation) : Except ReconcileError Unit × List Effect :=
  match getOutputsVolumeSize r inst with
  | Except.error e => (Except.error e, [])
  | Except.ok outputsReq =>
    let pvc := mkPvc jobName inst outputsReq
    match r.createPVC pvc with
    | some e => (Except.error (ReconcileError.api e), [Effect.createPVC pvc])
    | none =>
      let porterJob := mkPorterJob r jobName inst pvc
      match r.createJob porterJob with
      | some e =>
          (Except.error (ReconcileError.api e),
           [Effect.createPVC pvc, Effect.createJob porterJob])
      | none =>
          (Except.ok (),
           [Effect.createPVC pvc, Effect.createJob porterJob])

/-- `InstallationReconciler.Reconcile`: load the Installation (any load
failure is logged as a deletion and returns success with Requeue false);
derive the job name `<request-name>-<resourceVersion>`; query for that job
(found: nothing to do; not-found: run the creation path; any other query
failure: return it wrapped). -/
def Reconcile (r : Cluster) (req : NamespacedName) :
    Except ReconcileError ReconcileResult × List Effect :=
  match r.getInstallation req with
  | Except.error _ => (Except.ok { requeue := false }, [])
  | Except.ok inst =>
    let jobName := req.name ++ "-" ++ inst.resourceVersion
    match r.getJob { ns := req.ns, name := jobName } with
    | Except.ok _ => (Except.ok { requeue := false }, [])
    | Except.error err =>
      if err.isNotFound then
        match createJobForInstallation r jobName inst with
        | (Except.error e, fx) => (Except.error e, fx)
        | (Except.ok _, fx) => (Except.ok { requeue := false }, fx)
      else
        (Except.error (ReconcileError.api err), [])

/-! Helper definitions used by the theorem statements. -/

/-- Spec-side resolution chain for the volume size string: override,
else configmap key, else hard default "128Mi". -/
def cmValue (r : Cluster) (ns key : String) : Option String :=
  (match r.getConfigMap { ns := ns, name := "porter" } with
   | Except.ok cfg => cfg
   | Except.error _ => ConfigMap.empty).data.lookup key

/-- Spec-side description of the resolved volume-size string. -/
def specResolvedVolumeSize (r : Cluster) (inst : Installation) : String :=
  if inst.spec.outputsVolumeSize != "" then inst.spec.outputsVolumeSize
  else (cmValue r inst.ns "outputsVolumeSize").getD "128Mi"

/-- Spec-side description of the resolved porter version string. -/
def specResolvedPorterVersion (r : Cluster) (inst : Installation) : String :=
  if inst.spec.porterVersion != "" then inst.spec.porterVersion
  else (cmValue r inst.ns "porterVersion").getD "latest"

/-- Spec-side description of the resolved service account string. -/
def specResolvedServiceAccount (r : Cluster) (inst : Installation) : String :=
  if inst.spec.serviceAccount != "" then inst.spec.serviceAccount
  else (cmValue r inst.ns "serviceAccount").getD ""

/-- Wrap a parse outcome the way `getOutputsVolumeSize` reports it. -/
def qParse (s : String) : Except ReconcileError Quantity :=
  match parseQuantity s with
  | some qty => Except.ok qty
  | none => Except.error (ReconcileError.invalidQuantity s)

/-- The job created by an effect, if it is a job creation. -/
def Effect.createdJob : Effect → Option Job
  | Effect.createJob j => some j
  | _ => none

/-- The volume claim created by an effect, if it is a PVC creation. -/
def Effect.createdPVC : Effect → Option PersistentVolumeClaim
  | Effect.createPVC p => some p
  | _ => none

/-- Whether an effect writes the Installation's status. -/
def Effect.isStatusWrite : Effect → Bool
  | Effect.updateInstallationStatus _ _ _ => true
  | _ => false

/-- Owner-reference lists of the jobs created in a trace. -/
def createdJobOwnerRefs (fx : List Effect) : List (List OwnerReference) :=
  (fx.filterMap Effect.createdJob).map (fun j => j.metadata.ownerReferences)

/-- Replace the status of every Installation the cluster returns, leaving
everything else of the cluster untouched. -/
def Cluster.mapInstStatus (r : Cluster)
    (f : InstallationStatus → InstallationStatus) : Cluster :=
  { r with
    getInstallation := fun nn =>
      match r.getInstallation nn with
      | Except.ok inst => Except.ok { inst with status := f inst.status }
      | Except.error e => Except.error e }

/-! Concrete fixtures (the spec's end-to-end scenario: Installation
"wordpress" at revision "5", action "install", no overrides). -/

/-- The spec's end-to-end example Installation. -/
def instW : Installation :=
  { apiVersion := "porter.sh/v1"
    kind := "Installation"
    name := "wordpress"
    ns := "default"
    uid := "uid-1"
    resourceVersion := "5"
    spec :=
      { reference := "example.com/wordpress-bundle:v1"
        action := "install"
        porterVersion := ""
        serviceAccount := ""
        credentialSets := []
        parameterSets := []
        parameters := []
        outputsVolumeSize := "" }
    status := { activeJob := { name := "" }, lastJob := { name := "" } } }

/-- The reconcile request naming `instW`. -/
def reqW : NamespacedName := { ns := "default", name := "wordpress" }

/-- A cluster holding only `instW`: no job, no configmap, creates accepted. -/
def clusterBase : Cluster :=
  { getInstallation := fun nn =>
      if nn = reqW then Except.ok instW else Except.error ApiError.notFound
    getJob := fun _ => Except.error ApiError.notFound
    getConfigMap := fun _ => Except.error ApiError.notFound
    createPVC := fun _ => none
    createJob := fun _ => none }

/-- The PVC `clusterBase` reconciliation creates for `instW`. -/
def pvcW : PersistentVolumeClaim := mkPvc "wordpress-5" instW { raw := "128Mi" }

/-- The job `clusterBase` reconciliation creates for `instW`. -/
def porterJobW : Job := mkPorterJob clusterBase "wordpress-5" instW pvcW

/-- Like `clusterBase`, but the execution job `wordpress-5` already exists. -/
def clusterFound : Cluster :=
  { clusterBase with
    getJob := fun nn =>
      if nn = { ns := "default", name := "wordpress-5" } then Except.ok porterJobW
      else Except.error ApiError.notFound }

/-- Like `clusterBase`, but the PVC create is rejected as already existing. -/
def clusterPvcConflict : Cluster :=
  { clusterBase with createPVC := fun _ => some ApiError.alreadyExists }

/-- Like `clusterBase`, but the job create is rejected as already existing. -/
def clusterJobConflict : Cluster :=
  { clusterBase with createJob := fun _ => some ApiError.alreadyExists }

/-- A cluster whose Installation load fails with a transient error. -/
def clusterInstErr : Cluster :=
  { clusterBase with
    getInstallation := fun _ => Except.error (ApiError.other "connection refused") }

/-- Like `clusterBase`, but the job query fails with a transient error. -/
def clusterJobErr : Cluster :=
  { clusterBase with
    getJob := fun _ => Except.error (ApiError.other "connection refused") }

/-- `instW` with the malformed volume-size override from the spec. -/
def instBad : Installation :=
  { instW with spec := { instW.spec with outputsVolumeSize := "notasize" } }

/-- `instW` with the spec's non-core action "status-check" and one
credential set, one parameter set, and one literal parameter. -/
def instCustom : Installation :=
  { instW with
    spec := { instW.spec with
              action := "status-check"
              credentialSets := ["db-creds"]
              parameterSets := ["prod-params"]
              parameters := [("log-level", "11")] } }

/-- The job `clusterBase` reconciliation creates for `instCustom`. -/
def porterJobC : Job :=
  mkPorterJob clusterBase "wordpress-5" instCustom
    (mkPvc "wordpress-5" instCustom { raw := "128Mi" })

/-! Branch equations for the creation path and the reconcile loop. -/

/-- A volume-size resolution error aborts the pass before any create. -/
theorem createJobForInstallation_err (r : Cluster) (jobName : String)
    (inst : Installation) (err : ReconcileError)
    (hq : getOutputsVolumeSize r inst = Except.error err) :
    createJobForInstallation r jobName inst = (Except.error err, []) := by
  unfold createJobForInstallation
  rw [hq]

/-- A rejected PVC create returns its error after only the PVC attempt. -/
theorem createJobForInstallation_pvcFail (r : Cluster) (jobName : String)
    (inst : Installation) (q : Quantity) (e : ApiError)
    (hq : getOutputsVolumeSize r inst = Except.ok q)
    (hp : r.createPVC (mkPvc jobName inst q) = some e) :
    createJobForInstallation r jobName inst =
      (Except.error (ReconcileError.api e),
       [Effect.createPVC (mkPvc jobName inst q)]) := by
  unfold createJobForInstallation
  rw [hq]
  simp only [hp]

/-- A rejected job create returns its error after both attempts. -/
theorem createJobForInstallation_jobFail (r : Cluster) (jobName : String)
    (inst : Installation) (q : Quantity) (e : ApiError)
    (hq : getOutputsVolumeSize r inst = Except.ok q)
    (hp : r.createPVC (mkPvc jobName inst q) = none)
    (hj : r.createJob (mkPorterJob r jobName inst (mkPvc jobName inst q)) = some e) :
    createJobForInstallation r jobName inst =
      (Except.error (ReconcileError.api e),
       [Effect.createPVC (mkPvc jobName inst q),
        Effect.createJob (mkPorterJob r jobName inst (mkPvc jobName inst q))]) := by
  unfold createJobForInstallation
  rw [hq]
  simp only [hp, hj]

/-- Both creates accepted: success after both attempts. -/
theorem createJobForInstallation_ok (r : Cluster) (jobName : String)
    (inst : Installation) (q : Quantity)
    (hq : getOutputsVolumeSize r inst = Except.ok q)
    (hp : r.createPVC (mkPvc jobName inst q) = none)
    (hj : r.createJob (mkPorterJob r jobName inst (mkPvc jobName inst q)) = none) :
    createJobForInstallation r jobName inst =
      (Except.ok (),
       [Effect.createPVC (mkPvc jobName inst q),
        Effect.createJob (mkPorterJob r jobName inst (mkPvc jobName inst q))]) := by
  unfold createJobForInstallation
  rw [hq]
  simp only [hp, hj]

/-- Whatever the PVC's outcome once it is accepted, the trace is exactly
PVC attempt followed by job attempt. -/
theorem createJobForInstallation_pvcOk_trace (r : Cluster) (jobName : String)
    (inst : Installation) (q : Quantity)
    (hq : getOutputsVolumeSize r inst = Except.ok q)
    (hp : r.createPVC (mkPvc jobName inst q) = none) :
    (createJobForInstallation r jobName inst).2 =
      [Effect.createPVC (mkPvc jobName inst q),
       Effect.createJob (mkPorterJob r jobName inst (mkPvc jobName inst q))] := by
  cases hj : r.createJob (mkPorterJob r jobName inst (mkPvc jobName inst q)) with
  | none => rw [createJobForInstallation_ok r jobName inst q hq hp hj]
  | some e => rw [createJobForInstallation_jobFail r jobName inst q e hq hp hj]

/-- Every PVC the creation path submits is `mkPvc` of the resolved size. -/
theorem createPVC_effect_eq (r : Cluster) (jobName : String)
    (inst : Installation) (p : PersistentVolumeClaim)
    (hp : Effect.createPVC p ∈ (createJobForInstallation r jobName inst).2) :
    ∃ q, getOutputsVolumeSize r inst = Except.ok q ∧ p = mkPvc jobName inst q := by
  cases hq : getOutputsVolumeSize r inst with
  | error err =>
      rw [createJobForInstallation_err r jobName inst err hq] at hp
      simp at hp
  | ok q =>
      refine ⟨q, rfl, ?_⟩
      cases hpv : r.createPVC (mkPvc jobName inst q) with
      | some e =>
          rw [createJobForInstallation_pvcFail r jobName inst q e hq hpv] at hp
          simpa using hp
      | none =>
          rw [createJobForInstallation_pvcOk_trace r jobName inst q hq hpv] at hp
          simpa using hp

/-- Every job the creation path submits is `mkPorterJob` of that PVC. -/
theorem createJob_effect_eq (r : Cluster) (jobName : String)
    (inst : Installation) (j : Job)
    (hj : Effect.createJob j ∈ (createJobForInstallation r jobName inst).2) :
    ∃ q, getOutputsVolumeSize r inst = Except.ok q ∧
         j = mkPorterJob r jobName inst (mkPvc jobName inst q) := by
  cases hq : getOutputsVolumeSize r inst with
  | error err =>
      rw [createJobForInstallation_err r jobName inst err hq] at hj
      simp at hj
  | ok q =>
      refine ⟨q, rfl, ?_⟩
      cases hpv : r.createPVC (mkPvc jobName inst q) with
      | some e =>
          rw [createJobForInstallation_pvcFail r jobName inst q e hq hpv] at hj
          simp at hj
      | none =>
          rw [createJobForInstallation_pvcOk_trace r jobName inst q hq hpv] at hj
          simpa using hj

/-- Any Installation-load failure short-circuits to success, no effects. -/
theorem Reconcile_instErr (r : Cluster) (req : NamespacedName) (e : ApiError)
    (hi : r.getInstallation req = Except.error e) :
    Reconcile r req = (Except.ok { requeue := false }, []) := by
  unfold Reconcile
  rw [hi]

/-- When the derived job is found, the pass is a no-op. -/
theorem Reconcile_found (r : Cluster) (req : NamespacedName)
    (inst : Installation) (job : Job)
    (hi : r.getInstallation req = Except.ok inst)
    (hj : r.getJob { ns := req.ns, name := req.name ++ "-" ++ inst.resourceVersion } =
            Except.ok job) :
    Reconcile r req = (Except.ok { requeue := false }, []) := by
  unfold Reconcile
  rw [hi]
  simp only [hj]

/-- A non-not-found job-query failure is returned, no effects. -/
theorem Reconcile_queryErr (r : Cluster) (req : NamespacedName)
    (inst : Installation) (e : ApiError)
    (hi : r.getInstallation req = Except.ok inst)
    (hj : r.getJob { ns := req.ns, name := req.name ++ "-" ++ inst.resourceVersion } =
            Except.error e)
    (hnf : e.isNotFound = false) :
    Reconcile r req = (Except.error (ReconcileError.api e), []) := by
  unfold Reconcile
  rw [hi]
  simp [hj, hnf]

/-- A not-found job query runs the creation path; the pass returns its
error or success, and exactly its trace. -/
theorem Reconcile_create (r : Cluster) (req : NamespacedName)
    (inst : Installation)
    (hi : r.getInstallation req = Except.ok inst)
    (hj : r.getJob { ns := req.ns, name := req.name ++ "-" ++ inst.resourceVersion } =
            Except.error ApiError.notFound) :
    Reconcile r req =
      ((createJobForInstallation r (req.name ++ "-" ++ inst.resourceVersion) inst).1.map
         (fun _ => { requeue := false }),
       (createJobForInstallation r (req.name ++ "-" ++ inst.resourceVersion) inst).2) := by
  unfold Reconcile
  rw [hi]
  simp only [hj, ApiError.isNotFound, if_true]
  rcases h : createJobForInstallation r (req.name ++ "-" ++ inst.resourceVersion) inst
    with ⟨res, fx⟩
  cases res <;> simp [Except.map]

/-- Once the Installation is loaded, every effect of the pass comes from
the creation path for the derived job name. -/
theorem Reconcile_trace_sub (r : Cluster) (req : NamespacedName)
    (inst : Installation)
    (hi : r.getInstallation req = Except.ok inst) :
    ∀ eff ∈ (Reconcile r req).2,
      eff ∈ (createJobForInstallation r (req.name ++ "-" ++ inst.resourceVersion) inst).2 := by
  intro eff heff
  cases hj : r.getJob { ns := req.ns, name := req.name ++ "-" ++ inst.resourceVersion } with
  | ok job =>
      rw [Reconcile_found r req inst job hi hj] at heff
      simp at heff
  | error qe =>
      cases qe with
      | notFound =>
          rw [Reconcile_create r req inst hi hj] at heff
          exact heff
      | alreadyExists =>
          rw [Reconcile_queryErr r req inst ApiError.alreadyExists hi hj rfl] at heff
          simp at heff
      | other msg =>
          rw [Reconcile_queryErr r req inst (ApiError.other msg) hi hj rfl] at heff
          simp at heff

/-! Characterizations of the three configuration resolutions. -/

/-- `getOutputsVolumeSize` parses exactly the string resolved by the
override / configmap-key / "128Mi" chain. -/
theorem getOutputsVolumeSize_eq (r : Cluster) (inst : Installation) :
    getOutputsVolumeSize r inst = qParse (specResolvedVolumeSize r inst) := by
  unfold getOutputsVolumeSize specResolvedVolumeSize cmValue qParse
  cases hb : (inst.spec.outputsVolumeSize != "") with
  | true => simp only [hb, if_true]
  | false =>
    simp only [hb, Bool.false_eq_true, if_false]
    cases hg : r.getConfigMap { ns := inst.ns, name := "porter" } with
    | ok cfg =>
        cases hl : cfg.data.lookup "outputsVolumeSize" with
        | some v => simp only [hl, Option.getD_some]
        | none => simp only [hl, Option.getD_none]
    | error e =>
        simp [ConfigMap.empty]

/-- The resolved porter version follows the
override / configmap-key / "latest" chain. -/
theorem getPorterImageVersion_fst (r : Cluster) (inst : Installation) :
    (getPorterImageVersion r inst).1 = specResolvedPorterVersion r inst := by
  unfold getPorterImageVersion specResolvedPorterVersion cmValue
  cases hb : (inst.spec.porterVersion != "") with
  | true => simp only [hb, if_true]
  | false =>
    simp only [hb, Bool.false_eq_true, if_false]
    cases hg : r.getConfigMap { ns := inst.ns, name := "porter" } with
    | ok cfg =>
        cases hl : cfg.data.lookup "porterVersion" with
        | some v => simp only [hl, Option.getD_some]
        | none => simp only [hl, Option.getD_none]
    | error e =>
        simp [ConfigMap.empty]

/-- The resolved service account follows the
override / configmap-key / "" chain. -/
theorem getPorterAgentServiceAccount_eq (r : Cluster) (inst : Installation) :
    getPorterAgentServiceAccount r inst = specResolvedServiceAccount r inst := by
  unfold getPorterAgentServiceAccount specResolvedServiceAccount cmValue
  cases hb : (inst.spec.serviceAccount != "") with
  | true => simp only [hb, if_true]
  | false =>
    simp only [hb, Bool.false_eq_true, if_false]
    cases hg : r.getConfigMap { ns := inst.ns, name := "porter" } with
    | ok cfg =>
        cases hl : cfg.data.lookup "serviceAccount" with
        | some v => simp only [hl, Option.getD_some]
        | none => simp only [hl, Option.getD_none]
    | error e =>
        simp [ConfigMap.empty]

/-! Status-independence helpers. -/

/-- Replacing the Installation's status changes nothing the creation path
reads. -/
theorem createJobForInstallation_status_ignored (r : Cluster)
    (f : InstallationStatus → InstallationStatus) (jobName : String)
    (inst : Installation) :
    createJobForInstallation (r.mapInstStatus f) jobName
        { inst with status := f inst.status } =
      createJobForInstallation r jobName inst := rfl

/-- The creation path issues only create calls, never a status write. -/
theorem createJobForInstallation_no_status (r : Cluster) (jobName : String)
    (inst : Installation) :
    ∀ eff ∈ (createJobForInstallation r jobName inst).2,
      eff.isStatusWrite = false := by
  intro eff heff
  cases hq : getOutputsVolumeSize r inst with
  | error err =>
      rw [createJobForInstallation_err r jobName inst err hq] at heff
      simp at heff
  | ok q =>
      cases hpv : r.createPVC (mkPvc jobName inst q) with
      | some e =>
          rw [createJobForInstallation_pvcFail r jobName inst q e hq hpv] at heff
          simp at heff
          rw [heff]
          rfl
      | none =>
          rw [createJobForInstallation_pvcOk_trace r jobName inst q hq hpv] at heff
          simp at heff
          rcases heff with h | h <;> rw [h] <;> rfl

/-- Reconciliation is invariant under any rewriting of the status fields
of the Installations the cluster returns. -/
theorem Reconcile_status_invariant (r : Cluster)
    (f : InstallationStatus → InstallationStatus) (req : NamespacedName) :
    Reconcile (r.mapInstStatus f) req = Reconcile r req := by
  cases hi : r.getInstallation req with
  | error e =>
      have hi' : (r.mapInstStatus f).getInstallation req = Except.error e := by
        simp [Cluster.mapInstStatus, hi]
      rw [Reconcile_instErr (r.mapInstStatus f) req e hi',
        Reconcile_instErr r req e hi]
  | ok inst =>
      have hi' : (r.mapInstStatus f).getInstallation req =
          Except.ok { inst with status := f inst.status } := by
        simp [Cluster.mapInstStatus, hi]
      unfold Reconcile
      rw [hi, hi']
      rfl

/-- No reconciliation pass ever issues a status write. -/
theorem Reconcile_no_status (r : Cluster) (req : NamespacedName) :
    (Reconcile r req).2.filter Effect.isStatusWrite = [] := by
  cases hi : r.getInstallation req with
  | error e =>
      rw [Reconcile_instErr r req e hi]
      rfl
  | ok inst =>
    cases hj : r.getJob { ns := req.ns, name := req.name ++ "-" ++ inst.resourceVersion } with
    | ok job =>
        rw [Reconcile_found r req inst job hi hj]
        rfl
    | error qe =>
      cases qe with
      | notFound =>
        rw [Reconcile_create r req inst hi hj]
        cases hq : getOutputsVolumeSize r inst with
        | error err =>
            rw [createJobForInstallation_err r
              (req.name ++ "-" ++ inst.resourceVersion) inst err hq]
            rfl
        | ok q =>
          cases hpv : r.createPVC (mkPvc (req.name ++ "-" ++ inst.resourceVersion) inst q) with
          | some e =>
              rw [createJobForInstallation_pvcFail r
                (req.name ++ "-" ++ inst.resourceVersion) inst q e hq hpv]
              rfl
          | none =>
              rw [createJobForInstallation_pvcOk_trace r
                (req.name ++ "-" ++ inst.resourceVersion) inst q hq hpv]
              rfl
      | alreadyExists =>
          rw [Reconcile_queryErr r req inst ApiError.alreadyExists hi hj rfl]
          rfl
      | other msg =>
          rw [Reconcile_queryErr r req inst (ApiError.other msg) hi hj rfl]
          rfl

/-! The claims. -/

/-- C1: Idempotency at a fixed revision: if a job named
`<name>-<resourceVersion>` already exists in the Installation's namespace,
Reconcile returns success and creates nothing — a second reconciliation at
the same revision is a no-op. -/
theorem reconcile_idempotent_at_revision (r : Cluster) (req : NamespacedName)
    (inst : Installation) (job : Job)
    (hi : r.getInstallation req = Except.ok inst)
    (hj : r.getJob { ns := req.ns, name := req.name ++ "-" ++ inst.resourceVersion } =
            Except.ok job) :
    Reconcile r req = (Except.ok { requeue := false }, []) :=
  Reconcile_found r req inst job hi hj

/-- C1 witness: the end-to-end cluster with job "wordpress-5" present. -/
theorem reconcile_idempotent_at_revision_witness :
    Reconcile clusterFound reqW = (Except.ok { requeue := false }, []) :=
  reconcile_idempotent_at_revision clusterFound reqW instW porterJobW
    (by decide) (by decide)

/-- C2: Deterministic resource identity: every object a reconciliation
pass creates — the execution job and the scratch volume claim alike — is
named `<installation-name>-<resourceVersion>`, in the Installation's
namespace. -/
theorem reconcile_deterministic_identity (r : Cluster) (req : NamespacedName)
    (inst : Installation)
    (hi : r.getInstallation req = Except.ok inst)
    (hname : inst.name = req.name) :
    ∀ eff ∈ (Reconcile r req).2,
      (∀ p, eff = Effect.createPVC p →
         p.metadata.name = inst.name ++ "-" ++ inst.resourceVersion ∧
         p.metadata.ns = inst.ns) ∧
      (∀ j, eff = Effect.createJob j →
         j.metadata.name = inst.name ++ "-" ++ inst.resourceVersion ∧
         j.metadata.ns = inst.ns) := by
  intro eff heff
  have heff' := Reconcile_trace_sub r req inst hi eff heff
  constructor
  · rintro p rfl
    obtain ⟨q, hq, rfl⟩ := createPVC_effect_eq r _ inst p heff'
    rw [hname]
    exact ⟨rfl, rfl⟩
  · rintro j rfl
    obtain ⟨q, hq, rfl⟩ := createJob_effect_eq r _ inst j heff'
    rw [hname]
    exact ⟨rfl, rfl⟩

/-- C2 witness: the PVC created for `instW` is named "wordpress-5" in
namespace "default", identical to the derived job identity. -/
theorem reconcile_deterministic_identity_witness :
    pvcW.metadata.name = instW.name ++ "-" ++ instW.resourceVersion ∧
    pvcW.metadata.ns = instW.ns :=
  (reconcile_deterministic_identity clusterBase reqW instW (by decide) (by decide)
      (Effect.createPVC pvcW) (by decide)).1 pvcW rfl

/-- C3 counterexample: when the PVC create is rejected because the object
already exists, Reconcile returns an error — the already-exists outcome is
NOT treated as success. -/
theorem already_exists_is_error_cex :
    Reconcile clusterPvcConflict reqW =
      (Except.error (ReconcileError.api ApiError.alreadyExists),
       [Effect.createPVC pvcW]) := by decide

/-- C3 (amended): an already-exists rejection of either create call is
propagated as a reconciliation error, exactly like any other creation
failure (the treat-as-success behavior the spec requires is absent). -/
theorem already_exists_propagated (r : Cluster) (jobName : String)
    (inst : Installation) (q : Quantity)
    (hq : getOutputsVolumeSize r inst = Except.ok q) :
    (r.createPVC (mkPvc jobName inst q) = some ApiError.alreadyExists →
       (createJobForInstallation r jobName inst).1 =
         Except.error (ReconcileError.api ApiError.alreadyExists)) ∧
    (r.createPVC (mkPvc jobName inst q) = none →
     r.createJob (mkPorterJob r jobName inst (mkPvc jobName inst q)) =
         some ApiError.alreadyExists →
       (createJobForInstallation r jobName inst).1 =
         Except.error (ReconcileError.api ApiError.alreadyExists)) := by
  constructor
  · intro hp
    rw [createJobForInstallation_pvcFail r jobName inst q ApiError.alreadyExists hq hp]
  · intro hp hj
    rw [createJobForInstallation_jobFail r jobName inst q ApiError.alreadyExists hq hp hj]

/-- C3 amended witness: the conflicting job create surfaces as the pass's
error. -/
theorem already_exists_propagated_witness :
    (createJobForInstallation clusterJobConflict "wordpress-5" instW).1 =
      Except.error (ReconcileError.api ApiError.alreadyExists) :=
  (already_exists_propagated clusterJobConflict "wordpress-5" instW
      { raw := "128Mi" } (by decide)).2 (by decide) (by decide)

/-- C4: Three-tier precedence for each resolved setting: the Installation's
own non-empty field wins, else the matching key of the namespace's "porter"
configmap (retrieval failure degrading to the empty configmap), else the
hard-coded default — "128Mi" for volume size (then parsed), "latest" for
the porter version, "" for the service account. -/
theorem config_three_tier_precedence (r : Cluster) (inst : Installation) :
    getOutputsVolumeSize r inst = qParse (specResolvedVolumeSize r inst) ∧
    (getPorterImageVersion r inst).1 = specResolvedPorterVersion r inst ∧
    getPorterAgentServiceAccount r inst = specResolvedServiceAccount r inst :=
  ⟨getOutputsVolumeSize_eq r inst, getPorterImageVersion_fst r inst,
   getPorterAgentServiceAccount_eq r inst⟩

/-- C5: Executor command line: a core action is the first argument itself,
a non-core action becomes "invoke" "--action=…"; then the installation
name, the reference flag, the fixed debug flags and driver selector, then
one "-c=" flag per credential set, one "-p=" flag per parameter set, and
one "--param=key=value" flag per literal parameter. -/
theorem executor_args_shape (r : Cluster) (jobName : String)
    (inst : Installation) (j : Job)
    (hj : Effect.createJob j ∈ (createJobForInstallation r jobName inst).2) :
    j.spec.template.spec.containers.map Container.args =
      [(if isCoreAction inst.spec.action then [inst.spec.action]
        else ["invoke", "--action=" ++ inst.spec.action]) ++
       [inst.name,
        "--reference=" ++ inst.spec.reference,
        "--debug",
        "--debug-plugins",
        "--driver=kubernetes"] ++
       inst.spec.credentialSets.map (fun c => "-c=" ++ c) ++
       inst.spec.parameterSets.map (fun p => "-p=" ++ p) ++
       inst.spec.parameters.map (fun kv => "--param=" ++ kv.1 ++ "=" ++ kv.2)] := by
  obtain ⟨q, hq, rfl⟩ := createJob_effect_eq r jobName inst j hj
  rfl

/-- C5 witness: the core action "install" and the non-core action
"status-check" (with one credential set, parameter set, and literal
parameter) produce the claimed argument vectors. -/
theorem executor_args_shape_witness :
    (porterJobW.spec.template.spec.containers.map Container.args =
      [(if isCoreAction instW.spec.action then [instW.spec.action]
        else ["invoke", "--action=" ++ instW.spec.action]) ++
       [instW.name,
        "--reference=" ++ instW.spec.reference,
        "--debug",
        "--debug-plugins",
        "--driver=kubernetes"] ++
       instW.spec.credentialSets.map (fun c => "-c=" ++ c) ++
       instW.spec.parameterSets.map (fun p => "-p=" ++ p) ++
       instW.spec.parameters.map (fun kv => "--param=" ++ kv.1 ++ "=" ++ kv.2)]) ∧
    (porterJobC.spec.template.spec.containers.map Container.args =
      [(if isCoreAction instCustom.spec.action then [instCustom.spec.action]
        else ["invoke", "--action=" ++ instCustom.spec.action]) ++
       [instCustom.name,
        "--reference=" ++ instCustom.spec.reference,
        "--debug",
        "--debug-plugins",
        "--driver=kubernetes"] ++
       instCustom.spec.credentialSets.map (fun c => "-c=" ++ c) ++
       instCustom.spec.parameterSets.map (fun p => "-p=" ++ p) ++
       instCustom.spec.parameters.map (fun kv => "--param=" ++ kv.1 ++ "=" ++ kv.2)]) :=
  ⟨executor_args_shape clusterBase "wordpress-5" instW porterJobW (by decide),
   executor_args_shape clusterBase "wordpress-5" instCustom porterJobC (by decide)⟩

/-- C6: Malformed volume-size rejection: when the resolved volume-size
string does not parse as a capacity quantity, the creation path returns a
configuration error and attempts no create at all — neither the volume
claim nor the job. -/
theorem malformed_volume_size_rejected (r : Cluster) (jobName : String)
    (inst : Installation)
    (h : parseQuantity (specResolvedVolumeSize r inst) = none) :
    createJobForInstallation r jobName inst =
      (Except.error (ReconcileError.invalidQuantity (specResolvedVolumeSize r inst)),
       []) := by
  have hq : getOutputsVolumeSize r inst =
      Except.error (ReconcileError.invalidQuantity (specResolvedVolumeSize r inst)) := by
    rw [getOutputsVolumeSize_eq]
    unfold qParse
    rw [h]
  exact createJobForInstallation_err r jobName inst _ hq

/-- C6 witness: the spec's "notasize" override aborts the pass with an
invalid-quantity error and an empty creation trace. -/
theorem malformed_volume_size_rejected_witness :
    createJobForInstallation clusterBase "wordpress-5" instBad =
      (Except.error (ReconcileError.invalidQuantity "notasize"), []) :=
  Eq.trans
    (malformed_volume_size_rejected clusterBase "wordpress-5" instBad (by decide))
    (by decide)

/-- C7: Ordering and early abort: a creation-path trace is empty (size
resolution failed), or exactly the volume-claim attempt whose rejection is
the returned error (job creation never attempted), or the volume-claim
attempt followed by the job attempt — the volume claim always comes
first. -/
theorem volume_created_before_job (r : Cluster) (jobName : String)
    (inst : Installation) :
    (∃ err, getOutputsVolumeSize r inst = Except.error err ∧
        createJobForInstallation r jobName inst = (Except.error err, [])) ∨
    (∃ q e, getOutputsVolumeSize r inst = Except.ok q ∧
        r.createPVC (mkPvc jobName inst q) = some e ∧
        createJobForInstallation r jobName inst =
          (Except.error (ReconcileError.api e),
           [Effect.createPVC (mkPvc jobName inst q)])) ∨
    (∃ q, getOutputsVolumeSize r inst = Except.ok q ∧
        r.createPVC (mkPvc jobName inst q) = none ∧
        (createJobForInstallation r jobName inst).2 =
          [Effect.createPVC (mkPvc jobName inst q),
           Effect.createJob (mkPorterJob r jobName inst (mkPvc jobName inst q))]) := by
  cases hq : getOutputsVolumeSize r inst with
  | error err =>
      exact Or.inl ⟨err, rfl, createJobForInstallation_err r jobName inst err hq⟩
  | ok q =>
    cases hp : r.createPVC (mkPvc jobName inst q) with
    | some e =>
        exact Or.inr (Or.inl ⟨q, e, rfl, hp,
          createJobForInstallation_pvcFail r jobName inst q e hq hp⟩)
    | none =>
        exact Or.inr (Or.inr ⟨q, rfl, hp,
          createJobForInstallation_pvcOk_trace r jobName inst q hq hp⟩)

/-- C8 counterexample: a transient (non-not-found) failure loading the
Installation is treated as a deletion — Reconcile returns success, it does
not return the error as the claim states. -/
theorem load_error_not_propagated_cex :
    Reconcile clusterInstErr reqW = (Except.ok { requeue := false }, []) := by
  decide

/-- C8 (amended): a non-not-found failure of the job query is propagated
as the pass's error; but ANY failure of the Installation load — not only
not-found — is treated as a deletion and returns success with no retry
requested. -/
theorem failure_propagation_amended (r : Cluster) (req : NamespacedName) :
    (∀ e, r.getInstallation req = Except.error e →
       Reconcile r req = (Except.ok { requeue := false }, [])) ∧
    (∀ inst e, r.getInstallation req = Except.ok inst →
       r.getJob { ns := req.ns, name := req.name ++ "-" ++ inst.resourceVersion } =
         Except.error e →
       e.isNotFound = false →
       Reconcile r req = (Except.error (ReconcileError.api e), [])) :=
  ⟨fun e he => Reconcile_instErr r req e he,
   fun inst e hi hj hnf => Reconcile_queryErr r req inst e hi hj hnf⟩

/-- C8 amended witness: a transient job-query failure is returned to the
caller. -/
theorem failure_propagation_amended_witness :
    Reconcile clusterJobErr reqW =
      (Except.error (ReconcileError.api (ApiError.other "connection refused")), []) :=
  (failure_propagation_amended clusterJobErr reqW).2 instW
    (ApiError.other "connection refused") (by decide) (by decide) (by decide)

/-- C9 counterexample: the one job the end-to-end pass creates carries NO
owner reference on its own metadata (the reference sits on the pod
template instead), so deleting the Installation would not cascade to the
job. -/
theorem job_owner_reference_cex :
    createdJobOwnerRefs (createJobForInstallation clusterBase "wordpress-5" instW).2 =
      [[]] := by decide

/-- C9 (amended): every created job has exactly one required completion, a
backoff limit of zero, pod restart policy "Never", NO owner reference on
the job's own metadata, and the owner reference back to the Installation
on the pod template's metadata. -/
theorem job_construction_amended (r : Cluster) (jobName : String)
    (inst : Installation) (j : Job)
    (hj : Effect.createJob j ∈ (createJobForInstallation r jobName inst).2) :
    j.spec.completions = 1 ∧
    j.spec.backoffLimit = 0 ∧
    j.spec.template.spec.restartPolicy = "Never" ∧
    j.metadata.ownerReferences = [] ∧
    j.spec.template.metadata.ownerReferences =
      [{ apiVersion := inst.apiVersion, kind := inst.kind, name := inst.name,
         uid := inst.uid, blockOwnerDeletion := true }] := by
  obtain ⟨q, hq, rfl⟩ := createJob_effect_eq r jobName inst j hj
  exact ⟨rfl, rfl, rfl, rfl, rfl⟩

/-- C9 amended witness: the end-to-end created job. -/
theorem job_construction_amended_witness :
    porterJobW.spec.completions = 1 ∧
    porterJobW.spec.backoffLimit = 0 ∧
    porterJobW.spec.template.spec.restartPolicy = "Never" ∧
    porterJobW.metadata.ownerReferences = [] ∧
    porterJobW.spec.template.metadata.ownerReferences =
      [{ apiVersion := instW.apiVersion, kind := instW.kind, name := instW.name,
         uid := instW.uid, blockOwnerDeletion := true }] :=
  job_construction_amended clusterBase "wordpress-5" instW porterJobW (by decide)

/-- C10 counterexample: a full reconciliation pass that creates both the
volume claim and the job issues no status write at all — the active-job
and last-job references are never populated, contrary to the claim. -/
theorem status_not_populated_cex :
    (Reconcile clusterBase reqW).2.filter Effect.isStatusWrite = [] ∧
    (Reconcile clusterBase reqW).2 =
      [Effect.createPVC pvcW, Effect.createJob porterJobW] := by decide

/-- C10 (amended): the Reconciler neither writes nor reads the
Installation's status: no pass ever issues a status write, and every pass
is invariant under arbitrary rewriting of the status fields of the
Installations the cluster returns (so nothing of the Installation is
modified, status included). -/
theorem status_never_read_nor_written (r : Cluster)
    (f : InstallationStatus → InstallationStatus) (req : NamespacedName) :
    Reconcile (r.mapInstStatus f) req = Reconcile r req ∧
    (Reconcile r req).2.filter Effect.isStatusWrite = [] :=
  ⟨Reconcile_status_invariant r f req, Reconcile_no_status r req⟩

end PorterOperator
